import Mathlib

/-!
Verification of the ImpalaToGo dfs_cache connection/registry subsystem.

Shallow embedding of:
  be/src/dfs_cache/filesystem-descriptor-bound.cc
  be/src/dfs_cache/cache-layer-registry.cc

Native handles (`fsBridge`, `dfsFile`) are modelled as `Option Nat`
(`none` = NULL).  The opaque native binding (libhdfs-style calls) is
modelled by oracle parameters: each embedded function takes the results
the native calls would return and also reports, via an event trace,
which native calls it issued.
-/

set_option autoImplicit false

namespace ImpalaToGo

/-- The DFS_TYPE enum from the dfs_cache headers, as printed by the
operator<< in filesystem-descriptor-bound.cc (hdfs, s3n, s3a, local,
tachyon, DEFAULT_FROM_CONFIG, OTHER, NON_SPECIFIED). -/
inductive DFS_TYPE where
  | hdfs
  | s3n
  | s3a
  | local_fs
  | tachyon
  | DEFAULT_FROM_CONFIG
  | OTHER
  | NON_SPECIFIED
deriving DecidableEq, Repr

/-- FileSystemDescriptor: the (type, host, port) identity of one backend
endpoint.  Auxiliary auth fields carry no behavior in the embedded code
and are omitted. -/
structure FileSystemDescriptor where
  dfs_type : DFS_TYPE
  host : String
  port : Int
deriving DecidableEq, Repr

/-- Modelled from the spec: constants::DEFAULT_FS, the sentinel host value
that requests resolve-from-config; the constant lives in a header that is
not part of the sources, only its use in cache-layer-registry.cc is.  The
exact text is immaterial: every theorem only compares hosts against this
constant. -/
def DEFAULT_FS : String := "default"

/-- A native filesystem handle (fsBridge); `none` models NULL. -/
abbrev fsBridge := Option Nat

/-- A native file handle (dfsFile); `none` models NULL. -/
abbrev dfsFile := Option Nat

/-! ## Tachyon priming fileOpen
    TachyonFileSystemDescriptorBound::fileOpen,
    filesystem-descriptor-bound.cc lines 270-330. -/

/-- O_RDONLY from fcntl.h (Linux). -/
def O_RDONLY : Int := 0

/-- O_WRONLY from fcntl.h (Linux). -/
def O_WRONLY : Int := 1

/-- O_CREAT from fcntl.h (Linux, octal 0100). -/
def O_CREAT : Int := 64

/-- One native call issued by the Tachyon fileOpen: an open (with the
handle it returned), a read (with the byte count or error it returned),
or a close of a given handle (with its return code). -/
inductive NativeEvent where
  | evOpen (handle : Option Nat)
  | evRead (ret : Int)
  | evClose (handle : Nat) (ret : Int)
deriving DecidableEq, Repr

/-- Oracle for the native calls TachyonFileSystemDescriptorBound::fileOpen
makes: the result of the first _dfsOpenFile, whether malloc of the scratch
buffer succeeds, the successive _dfsRead return values (consumed one per
native read until a nonpositive one stops the loop), the _dfsCloseFile
return code, and the result of the reopening _dfsOpenFile. -/
structure TachyonFsEnv where
  openResult : Option Nat
  allocOk : Bool
  readResults : List Int
  closeResult : Int
  reopenResult : Option Nat
deriving DecidableEq, Repr

/-- The read loop of the priming read (lines 298-307): reads are issued
while the previous return was positive.  Returns the final value of
last_read and the number of native reads issued (= script entries
consumed).  An exhausted script acts as end-of-stream. -/
def runReadLoop : List Int → Int × Nat
  | [] => (0, 0)
  | r :: rs =>
    if r > 0 then
      let p := runReadLoop rs
      (p.1, p.2 + 1)
    else (r, 1)

/-- TachyonFileSystemDescriptorBound::fileOpen (lines 270-330): base open;
on NULL handle return NULL; if flags == O_WRONLY return the handle with no
priming; if the scratch-buffer malloc fails, close the handle and return
NULL; otherwise read to end of stream; on last_read == 0 close the handle
(NULL if the close fails) and reopen from position 0, returning the fresh
handle; on any other stop (last_read == -1 or other nonpositive) return
NULL with no close and no retry.  Returns the dfsFile result and the trace
of native calls issued. -/
def tachyonFileOpen (env : TachyonFsEnv) (flags : Int) :
    dfsFile × List NativeEvent :=
  match env.openResult with
  | none => (none, [NativeEvent.evOpen none])
  | some handle =>
    if flags = O_WRONLY then
      (some handle, [NativeEvent.evOpen (some handle)])
    else if env.allocOk = false then
      (none, [NativeEvent.evOpen (some handle),
              NativeEvent.evClose handle env.closeResult])
    else
      let p := runReadLoop env.readResults
      let readEvs := (env.readResults.take p.2).map NativeEvent.evRead
      if p.1 = 0 then
        if env.closeResult ≠ 0 then
          (none, NativeEvent.evOpen (some handle) :: readEvs
                   ++ [NativeEvent.evClose handle env.closeResult])
        else
          (env.reopenResult,
           NativeEvent.evOpen (some handle) :: readEvs
             ++ [NativeEvent.evClose handle 0,
                 NativeEvent.evOpen env.reopenResult])
      else
        (none, NativeEvent.evOpen (some handle) :: readEvs)

/-! ## Connection pool
    FileSystemDescriptorBound::getFreeConnection,
    filesystem-descriptor-bound.cc lines 82-133. -/

/-- States of a pooled dfsConnection (dfs_cache headers; the three states
used by filesystem-descriptor-bound.cc). -/
inductive ConnState where
  | NON_INITIALIZED
  | FREE_INITIALIZED
  | BUSY_OK
deriving DecidableEq, Repr

/-- A pooled connection: the owned native handle and its state. -/
structure dfsConnection where
  connection : fsBridge
  state : ConnState
deriving DecidableEq, Repr

/-- Modelled from the spec: freeConnectionPredicate is declared in a
header that is not among the sources; per spec step 1 ("scan existing
connections for one in FreeReady state") and the call-site comment, it
matches a connection in FREE_INITIALIZED state. -/
def freeConnectionPredicate (c : dfsConnection) : Bool :=
  c.state == ConnState.FREE_INITIALIZED

/-- Modelled from the spec: anyNonInitializedConnectionPredicate is
declared in a header that is not among the sources; per spec step 2 and
the call-site comment ("any other connections except in BUSY_OK or
FREE_INITIALIZED state"), it matches a connection in neither BUSY_OK nor
FREE_INITIALIZED state. -/
def anyNonInitializedConnectionPredicate (c : dfsConnection) : Bool :=
  !(c.state == ConnState.BUSY_OK) && !(c.state == ConnState.FREE_INITIALIZED)

/-- In-place update of the list element at index i (the C++ code mutates
the connection object the found iterator points at). -/
def updateAt {α : Type} : Nat → (α → α) → List α → List α
  | _, _, [] => []
  | 0, f, c :: cs => f c :: cs
  | Nat.succ j, f, c :: cs => c :: updateAt j f cs

/-- A just-appended brand-new connection in FREE_INITIALIZED state makes
the free-connection scan succeed at index pool.length (used both for the
termination of getFreeConnection and for its step-3 behavior). -/
theorem findIdx?_append_free (pool : List dfsConnection) (c : dfsConnection)
    (hnone : pool.findIdx? freeConnectionPredicate = none)
    (hc : freeConnectionPredicate c = true) :
    (pool ++ [c]).findIdx? freeConnectionPredicate = some pool.length := by
  rw [List.findIdx?_append, hnone]
  simp [List.findIdx?_cons, hc]

/-- FileSystemDescriptorBound::getFreeConnection (lines 82-133).
The opaque connect() outcome is the oracle `connectRes` (`none` = NULL
bridge; at most one connect() is issued per call, so one oracle value
suffices).  A returned Lease over slot i is modelled as `some i`; the
empty Lease (raiiDfsConnection over a null dfsConnectionPtr) as `none`.
Each std::find_if scan plus iterator-vs-end() test is embedded as a
findIdx? lookup plus isSome test.  Steps: (1) the first FREE_INITIALIZED
slot is marked BUSY_OK and leased; (2) else the first slot matching
anyNonInitializedConnectionPredicate is re-connected in place: on success
its handle is replaced and it is marked BUSY_OK and leased, on failure
the empty Lease is returned with no retry; (3) else a new connection is
built and, only if connect() succeeds, appended in FREE_INITIALIZED
state, after which the function calls itself again (that call finds the
appended slot in step 1); a failed connect returns the empty Lease with
the pool untouched. -/
def getFreeConnection (connectRes : fsBridge) (pool : List dfsConnection) :
    Option Nat × List dfsConnection :=
  if h1 : (pool.findIdx? freeConnectionPredicate).isSome then
    let i := (pool.findIdx? freeConnectionPredicate).get h1
    (some i, updateAt i (fun c => { c with state := ConnState.BUSY_OK }) pool)
  else if h2 : (pool.findIdx? anyNonInitializedConnectionPredicate).isSome then
    let i := (pool.findIdx? anyNonInitializedConnectionPredicate).get h2
    match connectRes with
    | some conn =>
      (some i, updateAt i (fun _ => ⟨some conn, ConnState.BUSY_OK⟩) pool)
    | none => (none, pool)
  else
    match connectRes with
    | some conn =>
      getFreeConnection connectRes
        (pool ++ [⟨some conn, ConnState.FREE_INITIALIZED⟩])
    | none => (none, pool)
termination_by
  (if (pool.findIdx? freeConnectionPredicate).isSome then 0 else 1)
decreasing_by
  have hnone : pool.findIdx? freeConnectionPredicate = none := by
    cases hh : pool.findIdx? freeConnectionPredicate with
    | none => rfl
    | some v => rw [hh] at h1; simp at h1
  have happ := findIdx?_append_free pool
    ⟨some conn, ConnState.FREE_INITIALIZED⟩ hnone
    (by simp [freeConnectionPredicate])
  rw [if_neg h1, if_pos (by rw [happ]; rfl)]
  omega

/-! ## Lease and adapter pass-through operations
    FileSystemDescriptorBound::fileOpen / fileRead,
    filesystem-descriptor-bound.cc lines 135-138 and 153-156. -/

/-- Modelled from the spec: raiiDfsConnection (the Lease) is declared in a
header that is not among the sources; per the spec it wraps one pooled
connection pointer, and the empty Lease ("no connection available", the
dfsConnectionPtr() default) wraps a null pointer, modelled as `none`. -/
abbrev raiiDfsConnection := Option dfsConnection

/-- Outcome of one embedded adapter call: either the value the C++
function returns, or the null-pointer dereference that
`conn.connection()->connection` performs when the Lease is empty
(undefined behavior in the source, modelled as a distinguished crash
outcome that is not any returned value). -/
inductive CppOutcome (α : Type) where
  | nullDeref
  | ok (val : α)
deriving DecidableEq, Repr

/-- Result of a pass-through call: its outcome, plus whether the native
binding call was actually issued. -/
structure PassThrough (α : Type) where
  outcome : CppOutcome α
  nativeInvoked : Bool
deriving DecidableEq, Repr

/-- FileSystemDescriptorBound::fileOpen (lines 135-138): a single
unconditional statement `return _dfsOpenFile(conn.connection()->connection,
path, flags, bufferSize, replication, blocksize);`.  The native binding is
the oracle `nativeOpen` (path, flags and the size arguments are forwarded
unmodified and folded into the oracle).  There is no emptiness check on
the Lease: an empty Lease is dereferenced. -/
def FileSystemDescriptorBound.fileOpen (conn : raiiDfsConnection)
    (nativeOpen : fsBridge → dfsFile) : PassThrough dfsFile :=
  match conn with
  | none => ⟨CppOutcome.nullDeref, false⟩
  | some c => ⟨CppOutcome.ok (nativeOpen c.connection), true⟩

/-- FileSystemDescriptorBound::fileRead (lines 153-156): a single
unconditional statement `return _dfsRead(conn.connection()->connection,
file, buffer, length);` (tSize result; -1 is the native error code).  The
native binding is the oracle `nativeRead`; no emptiness check on the
Lease. -/
def FileSystemDescriptorBound.fileRead (conn : raiiDfsConnection)
    (nativeRead : fsBridge → Int) : PassThrough Int :=
  match conn with
  | none => ⟨CppOutcome.nullDeref, false⟩
  | some c => ⟨CppOutcome.ok (nativeRead c.connection), true⟩

/-! ## Pool mutex use in getFreeConnection
    filesystem-descriptor-bound.cc line 85. -/

/-- A boost::unique_lock object (boost::mutex::scoped_lock is an alias):
records whether it owns a locked mutex. -/
structure UniqueLock where
  ownsLock : Bool
deriving DecidableEq, Repr

/-- The default constructor boost::unique_lock(): associated with no
mutex, owning no lock. -/
def uniqueLockDefault : UniqueLock := ⟨false⟩

/-- The statement at line 85, `boost::mutex::scoped_lock(m_mux);`.  By the
C++ declaration grammar this is a declaration of a default-constructed
local variable named m_mux of type boost::mutex::scoped_lock (the
parentheses around the declarator are redundant), not a lock acquisition
of the member mutex m_mux; the lock object it introduces owns nothing.
Contrast the correct idiom used in cache-layer-registry.cc, e.g. line 69:
`boost::mutex::scoped_lock lockconn(m_connmux);`. -/
def line85ScopedLock : UniqueLock := uniqueLockDefault

/-! ## Cache registry: adapter directory
    CacheLayerRegistry::setupFileSystem / getFileSystemDescriptor,
    cache-layer-registry.cc lines 44-91, and
    FileSystemDescriptorBound::resolveFsAddress,
    filesystem-descriptor-bound.cc lines 55-80. -/

/-- Status codes returned by setupFileSystem. -/
inductive StatusInternal where
  | OK
  | DFS_ADAPTOR_IS_NOT_CONFIGURED
deriving DecidableEq, Repr

/-- One FileSystem-bound adapter as stored in the registry: whether it is
the Tachyon priming variant (TachyonFileSystemDescriptorBound) or the base
FileSystemDescriptorBound, and the descriptor it was constructed from. -/
structure FileSystemDescriptorBound where
  isTachyon : Bool
  fsDescriptor : FileSystemDescriptor
deriving DecidableEq, Repr

/-- The registry's nested map(dfs_type → map(host → adapter)), embedded as
an association list keyed by the (dfs_type, host) pair with
first-match-wins lookup; `count`/`insert`/`operator[]` on the nested
std::maps coincide with lookup/insert on this keyed list. -/
structure CacheLayerRegistry where
  m_filesystems : List ((DFS_TYPE × String) × FileSystemDescriptorBound)
deriving DecidableEq, Repr

/-- Lookup of the adapter registered for (dfs_type, host): the nested
count/operator[] access of cache-layer-registry.cc. -/
def fsLookup (reg : CacheLayerRegistry) (t : DFS_TYPE) (h : String) :
    Option FileSystemDescriptorBound :=
  (reg.m_filesystems.find? (fun kv => kv.1 == (t, h))).map (fun kv => kv.2)

/-- Number of adapters registered under (dfs_type, host). -/
def fsCount (reg : CacheLayerRegistry) (t : DFS_TYPE) (h : String) : Nat :=
  (reg.m_filesystems.filter (fun kv => kv.1 == (t, h))).length

/-- The answer of the opaque Hadoop resolver
_dfsGetDefaultFsHostPortType: the effective host, port and filesystem
type it writes back on success. -/
structure ResolvedFs where
  host : String
  port : Int
  dfs_type : DFS_TYPE
deriving DecidableEq, Repr

/-- FileSystemDescriptorBound::resolveFsAddress (lines 55-80): queries the
external resolver (oracle `resolver`; `none` models a nonzero failure
status) and, only on success (status 0), writes the resolved host, port
and type back into the descriptor, normalizing a negative resolved port
to 0.  Returns (status, updated descriptor). -/
def resolveFsAddress (resolver : Option ResolvedFs)
    (fsDescriptor : FileSystemDescriptor) : Int × FileSystemDescriptor :=
  match resolver with
  | none => (-1, fsDescriptor)
  | some res =>
    (0, { fsDescriptor with
            host := res.host
            dfs_type := res.dfs_type
            port := if res.port < 0 then 0 else res.port })

/-- The pooling tail of CacheLayerRegistry::setupFileSystem (lines 69-82):
under the adapter-directory lock, if an adapter for (dfs_type, host) is
already registered, nothing is added; otherwise the adapter is
constructed — the Tachyon priming variant exactly when dfs_type ==
tachyon — and inserted; returns OK either way. -/
def setupFileSystemPooling (reg : CacheLayerRegistry)
    (d : FileSystemDescriptor) :
    StatusInternal × CacheLayerRegistry × FileSystemDescriptor :=
  match fsLookup reg d.dfs_type d.host with
  | some _ => (StatusInternal.OK, reg, d)
  | none =>
    (StatusInternal.OK,
     ⟨((d.dfs_type, d.host),
       ⟨d.dfs_type == DFS_TYPE.tachyon, d⟩) :: reg.m_filesystems⟩,
     d)

/-- CacheLayerRegistry::setupFileSystem (lines 44-83): if the host is the
resolve-from-config sentinel, first resolve it (on a nonzero resolution
status return DFS_ADAPTOR_IS_NOT_CONFIGURED, registry untouched); then
proceed with pooling on the (possibly resolved) descriptor.  The
descriptor is passed by reference in C++, so the updated descriptor is
returned alongside status and registry. -/
def setupFileSystem (resolver : Option ResolvedFs) (reg : CacheLayerRegistry)
    (fsDescriptor : FileSystemDescriptor) :
    StatusInternal × CacheLayerRegistry × FileSystemDescriptor :=
  if fsDescriptor.host = DEFAULT_FS then
    let p := resolveFsAddress resolver fsDescriptor
    if p.1 ≠ 0 then (StatusInternal.DFS_ADAPTOR_IS_NOT_CONFIGURED, reg, p.2)
    else setupFileSystemPooling reg p.2
  else
    setupFileSystemPooling reg fsDescriptor

/-- CacheLayerRegistry::getFileSystemDescriptor (lines 85-91): locked
lookup of the adapter for the descriptor's (dfs_type, host); nullptr
(`none`) when absent. -/
def getFileSystemDescriptor (reg : CacheLayerRegistry)
    (fsDescriptor : FileSystemDescriptor) : Option FileSystemDescriptorBound :=
  fsLookup reg fsDescriptor.dfs_type fsDescriptor.host

/-! ## Cache registry: create-from-select pairing
    cache-layer-registry.cc lines 142-167. -/

/-- The m_createFromSelect map(local dfsFile → remote dfsFile); dfsFile
keys are opaque handles, embedded as an association list of Nat pairs. -/
abbrev CreateFromSelectMap := List (Nat × Nat)

/-- CacheLayerRegistry::registerCreateFromSelectScenario (lines 142-150):
inserts local → remote only if no scenario for local exists; returns
whether it inserted, with the (possibly) updated map. -/
def registerCreateFromSelectScenario (m : CreateFromSelectMap)
    (localKey remoteVal : Nat) : Bool × CreateFromSelectMap :=
  match m.find? (fun kv => kv.1 == localKey) with
  | none => (true, m ++ [(localKey, remoteVal)])
  | some _ => (false, m)

/-- CacheLayerRegistry::unregisterCreateFromSelectScenario (lines
152-156): erases the entry for local; returns whether exactly one entry
was erased (std::map::erase count == 1), with the updated map. -/
def unregisterCreateFromSelectScenario (m : CreateFromSelectMap)
    (localKey : Nat) : Bool × CreateFromSelectMap :=
  let m2 := m.filter (fun kv => !(kv.1 == localKey))
  (m.length - m2.length == 1, m2)

/-- CacheLayerRegistry::getCreateFromSelectScenario (lines 158-167): pure
lookup; `none` models the (NULL, exists=false) answer, `some r` the
(r, exists=true) answer. -/
def getCreateFromSelectScenario (m : CreateFromSelectMap)
    (localKey : Nat) : Option Nat :=
  (m.find? (fun kv => kv.1 == localKey)).map (fun kv => kv.2)

/-! ## Shared helper lemmas -/

theorem runReadLoop_snd_pos (r : Int) (rs : List Int) :
    0 < (runReadLoop (r :: rs)).2 := by
  simp only [runReadLoop]
  split <;> simp

/-! ## Claim theorems: Tachyon priming fileOpen -/

/-- C3: on the Tachyon adapter, fileOpen with read access (O_RDONLY)
performs the base open, then reads sequentially until end-of-stream
(last_read == 0), then closes the handle and reopens the same path,
returning the handle of that final open — which nothing reads afterwards,
so it sits at offset zero; fileOpen with write access (O_WRONLY) performs
only the base open and issues no priming read. -/
theorem tachyonFileOpen_priming_spec (env : TachyonFsEnv) (h0 : Nat) :
    (env.openResult = some h0 → env.allocOk = true →
     (runReadLoop env.readResults).1 = 0 → env.closeResult = 0 →
     tachyonFileOpen env O_RDONLY =
       (env.reopenResult,
        NativeEvent.evOpen (some h0)
          :: ((env.readResults.take (runReadLoop env.readResults).2).map

                NativeEvent.evRead
              ++ [NativeEvent.evClose h0 0,
                  NativeEvent.evOpen env.reopenResult])))
    ∧ (env.openResult = some h0 →
       tachyonFileOpen env O_WRONLY =
         (some h0, [NativeEvent.evOpen (some h0)])) := by
  constructor
  · intro hOpen hAlloc hRead hClose
    simp [tachyonFileOpen, hOpen, hAlloc, hRead, hClose, O_RDONLY, O_WRONLY]
  · intro hOpen
    simp [tachyonFileOpen, hOpen]

/-- Witness for C3 at a concrete environment: handle 1, a two-read script
reaching end-of-stream, successful close, reopened handle 2. -/
theorem tachyonFileOpen_priming_spec_witness :
    tachyonFileOpen ⟨some 1, true, [5, 0], 0, some 2⟩ O_RDONLY =
        (some 2, [NativeEvent.evOpen (some 1), NativeEvent.evRead 5,
                  NativeEvent.evRead 0, NativeEvent.evClose 1 0,
                  NativeEvent.evOpen (some 2)])
      ∧ tachyonFileOpen ⟨some 1, true, [5, 0], 0, some 2⟩ O_WRONLY =
        (some 1, [NativeEvent.evOpen (some 1)]) := by
  have h := tachyonFileOpen_priming_spec ⟨some 1, true, [5, 0], 0, some 2⟩ 1
  exact ⟨h.1 rfl rfl (by decide) rfl, h.2 rfl⟩

/-- C4: in the Tachyon priming fileOpen (any non-O_WRONLY flags), if the
read loop stops with the native error -1, a null handle is returned and
nothing follows the reads (no retry); if the scratch-buffer allocation
fails, the originally opened handle is closed and a null handle is
returned; in neither case is any handle returned to the caller. -/
theorem tachyonFileOpen_failure_spec (env : TachyonFsEnv) (h0 : Nat)
    (flags : Int) :
    (flags ≠ O_WRONLY → env.openResult = some h0 → env.allocOk = true →
     (runReadLoop env.readResults).1 = -1 →
     tachyonFileOpen env flags =
       (none, NativeEvent.evOpen (some h0)
          :: (env.readResults.take (runReadLoop env.readResults).2).map
               NativeEvent.evRead))
    ∧ (flags ≠ O_WRONLY → env.openResult = some h0 → env.allocOk = false →
       tachyonFileOpen env flags =
         (none, [NativeEvent.evOpen (some h0),
                 NativeEvent.evClose h0 env.closeResult])) := by
  constructor
  · intro hflags hOpen hAlloc hRead
    simp [tachyonFileOpen, hOpen, hAlloc, hRead, hflags]
  · intro hflags hOpen hAlloc
    simp [tachyonFileOpen, hOpen, hAlloc, hflags]

/-- Witness for C4: a read script failing with -1 mid-file, and an
allocation failure with close code 3. -/
theorem tachyonFileOpen_failure_spec_witness :
    tachyonFileOpen ⟨some 1, true, [5, -1], 0, some 2⟩ O_RDONLY =
        (none, [NativeEvent.evOpen (some 1), NativeEvent.evRead 5,
                NativeEvent.evRead (-1)])
      ∧ tachyonFileOpen ⟨some 1, false, [5, 0], 3, some 2⟩ O_RDONLY =
        (none, [NativeEvent.evOpen (some 1), NativeEvent.evClose 1 3]) := by
  constructor
  · have h := (tachyonFileOpen_failure_spec ⟨some 1, true, [5, -1], 0, some 2⟩
      1 O_RDONLY).1 (by decide) rfl rfl (by decide)
    simpa using h
  · exact (tachyonFileOpen_failure_spec ⟨some 1, false, [5, 0], 3, some 2⟩
      1 O_RDONLY).2 (by decide) rfl rfl

/-- C9: the priming read is skipped exactly when flags equals O_WRONLY:
with flags == O_WRONLY no native read is issued, and for every other flags
value (including O_WRONLY|O_CREAT) the priming read is performed after a
successful base open with a usable buffer. -/
theorem tachyonFileOpen_wronly_exact (env : TachyonFsEnv) (h0 : Nat)
    (flags : Int) (r : Int) (rs : List Int) :
    (flags = O_WRONLY → env.openResult = some h0 →
       ∀ x, NativeEvent.evRead x ∉ (tachyonFileOpen env flags).2)
    ∧ (flags ≠ O_WRONLY → env.openResult = some h0 → env.allocOk = true →
       env.readResults = r :: rs →
       NativeEvent.evRead r ∈ (tachyonFileOpen env flags).2) := by
  constructor
  · intro hflags hOpen x
    simp [tachyonFileOpen, hOpen, hflags]
  · intro hflags hOpen hAlloc hReads
    obtain ⟨m, hm⟩ : ∃ m, (runReadLoop (r :: rs)).2 = m + 1 :=
      ⟨(runReadLoop (r :: rs)).2 - 1,
        by have := runReadLoop_snd_pos r rs; omega⟩
    simp only [tachyonFileOpen, hOpen, hAlloc, hflags, hReads, if_false,
      Bool.true_eq_false, if_neg (fun h => hflags h)]
    split
    · split <;> simp [hm, List.take_succ_cons]
    · simp [hm, List.take_succ_cons]

/-- Witness for C9 at flags O_WRONLY|O_CREAT = 65 (priming still runs)
and flags O_WRONLY = 1 (no read). -/
theorem tachyonFileOpen_wronly_exact_witness :
    NativeEvent.evRead 5 ∈
        (tachyonFileOpen ⟨some 1, true, [5, 0], 0, some 2⟩ 65).2
      ∧ ∀ x, NativeEvent.evRead x ∉
        (tachyonFileOpen ⟨some 1, true, [5, 0], 0, some 2⟩ O_WRONLY).2 := by
  constructor
  · exact (tachyonFileOpen_wronly_exact ⟨some 1, true, [5, 0], 0, some 2⟩
      1 65 5 [0]).2 (by decide) rfl rfl rfl
  · exact (tachyonFileOpen_wronly_exact ⟨some 1, true, [5, 0], 0, some 2⟩
      1 O_WRONLY 5 [0]).1 rfl rfl

/-- C10: when the priming read stops with the native error -1, the
Tachyon fileOpen returns a null handle without issuing any native close
(the originally opened handle is not closed); in the scratch-buffer
allocation-failure branch, by contrast, the original handle is closed
before null is returned. -/
theorem tachyonFileOpen_error_close_behavior (env : TachyonFsEnv)
    (h0 : Nat) (flags : Int) :
    (flags ≠ O_WRONLY → env.openResult = some h0 → env.allocOk = true →
     (runReadLoop env.readResults).1 = -1 →
     (tachyonFileOpen env flags).1 = none
       ∧ ∀ h r, NativeEvent.evClose h r ∉ (tachyonFileOpen env flags).2)
    ∧ (flags ≠ O_WRONLY → env.openResult = some h0 → env.allocOk = false →
       (tachyonFileOpen env flags).1 = none
         ∧ NativeEvent.evClose h0 env.closeResult ∈
             (tachyonFileOpen env flags).2) := by
  constructor
  · intro hflags hOpen hAlloc hRead
    constructor
    · simp [tachyonFileOpen, hOpen, hAlloc, hRead, hflags]
    · intro h r hmem
      simp [tachyonFileOpen, hOpen, hAlloc, hRead, hflags] at hmem
      exact absurd (List.mem_of_mem_take hmem) (by simp)
  · intro hflags hOpen hAlloc
    constructor
    · simp [tachyonFileOpen, hOpen, hAlloc, hflags]
    · simp [tachyonFileOpen, hOpen, hAlloc, hflags]

/-- Witness for C10: the -1 read script yields no close event; the
allocation failure yields the close of handle 1. -/
theorem tachyonFileOpen_error_close_behavior_witness :
    ((tachyonFileOpen ⟨some 1, true, [5, -1], 0, some 2⟩ O_RDONLY).1 = none
      ∧ ∀ h r, NativeEvent.evClose h r ∉
          (tachyonFileOpen ⟨some 1, true, [5, -1], 0, some 2⟩ O_RDONLY).2)
    ∧ ((tachyonFileOpen ⟨some 1, false, [5, 0], 3, some 2⟩ O_RDONLY).1 = none
      ∧ NativeEvent.evClose 1 3 ∈
          (tachyonFileOpen ⟨some 1, false, [5, 0], 3, some 2⟩ O_RDONLY).2) := by
  constructor
  · exact (tachyonFileOpen_error_close_behavior
      ⟨some 1, true, [5, -1], 0, some 2⟩ 1 O_RDONLY).1
      (by decide) rfl rfl (by decide)
  · exact (tachyonFileOpen_error_close_behavior
      ⟨some 1, false, [5, 0], 3, some 2⟩ 1 O_RDONLY).2
      (by decide) rfl rfl

/-! ## Claim theorems: Lease pass-through (C1) and pool lock (C8) -/

/-- C1 counterexample: on the empty Lease with a concrete native binding,
fileOpen does not return the I/O failure value (a NULL handle) — its
outcome is the null-pointer dereference of the unchecked Lease, which is
no returned value at all; likewise fileRead does not return the native
error code -1. -/
theorem fileOpen_empty_lease_counterexample :
    (FileSystemDescriptorBound.fileOpen none (fun _ => some 7)).outcome
        = CppOutcome.nullDeref
      ∧ (¬ ∃ v, (FileSystemDescriptorBound.fileOpen none
          (fun _ => some 7)).outcome = CppOutcome.ok v)
      ∧ (FileSystemDescriptorBound.fileRead none (fun _ => 3)).outcome
        ≠ CppOutcome.ok (-1) := by
  refine ⟨rfl, ?_, by simp [FileSystemDescriptorBound.fileRead]⟩
  rintro ⟨v, hv⟩
  simp [FileSystemDescriptorBound.fileOpen] at hv

/-- C1 (amended): the pass-through operations perform no Lease validity
check: on an empty Lease, fileOpen and fileRead dereference the null
connection pointer — undefined behavior, modelled as the distinguished
nullDeref outcome — without issuing the native call and without returning
an I/O failure value; on a valid Lease they forward unconditionally to
the native binding and return its result unmodified. -/
theorem fileOpen_fileRead_lease_pass_through
    (nativeOpen : fsBridge → dfsFile) (nativeRead : fsBridge → Int)
    (c : dfsConnection) :
    FileSystemDescriptorBound.fileOpen none nativeOpen
        = ⟨CppOutcome.nullDeref, false⟩
      ∧ FileSystemDescriptorBound.fileRead none nativeRead
        = ⟨CppOutcome.nullDeref, false⟩
      ∧ FileSystemDescriptorBound.fileOpen (some c) nativeOpen
        = ⟨CppOutcome.ok (nativeOpen c.connection), true⟩
      ∧ FileSystemDescriptorBound.fileRead (some c) nativeRead
        = ⟨CppOutcome.ok (nativeRead c.connection), true⟩ :=
  ⟨rfl, rfl, rfl, rfl⟩

/-- C8: the claim that getFreeConnection scans and mutates the pool under
the adapter's pool lock fails on the code: the sole lock statement,
`boost::mutex::scoped_lock(m_mux);` at line 85, declares a
default-constructed scoped_lock (it does not lock the member mutex), so
the lock object in scope during the scan and the state transitions owns
no mutex. -/
theorem getFreeConnection_lock_never_acquired :
    line85ScopedLock.ownsLock = false := rfl

/-! ## Claim theorem: getFreeConnection pool algorithm (C2) -/

theorem updateAt_length {α : Type} (i : Nat) (f : α → α) (l : List α) :
    (updateAt i f l).length = l.length := by
  induction l generalizing i with
  | nil => simp [updateAt]
  | cons c cs ih =>
    cases i with
    | zero => simp [updateAt]
    | succ j => simp [updateAt, ih]

theorem updateAt_append_at_length {α : Type} (f : α → α) (l : List α)
    (c : α) : updateAt l.length f (l ++ [c]) = l ++ [f c] := by
  induction l with
  | nil => simp [updateAt]
  | cons a as ih => simp [updateAt, ih]

theorem getFreeConnection_free (r : fsBridge) (pool : List dfsConnection)
    (i : Nat) (h : pool.findIdx? freeConnectionPredicate = some i) :
    getFreeConnection r pool =
      (some i,
       updateAt i (fun c => { c with state := ConnState.BUSY_OK }) pool) := by
  rw [getFreeConnection.eq_def]
  simp [h]

theorem getFreeConnection_repair (pool : List dfsConnection) (i conn : Nat)
    (h1 : pool.findIdx? freeConnectionPredicate = none)
    (h2 : pool.findIdx? anyNonInitializedConnectionPredicate = some i) :
    getFreeConnection (some conn) pool =
      (some i, updateAt i (fun _ => ⟨some conn, ConnState.BUSY_OK⟩) pool) := by
  rw [getFreeConnection.eq_def]
  simp [h1, h2]

theorem getFreeConnection_repair_fail (pool : List dfsConnection) (i : Nat)
    (h1 : pool.findIdx? freeConnectionPredicate = none)
    (h2 : pool.findIdx? anyNonInitializedConnectionPredicate = some i) :
    getFreeConnection none pool = (none, pool) := by
  rw [getFreeConnection.eq_def]
  simp [h1, h2]

theorem getFreeConnection_grow (pool : List dfsConnection) (conn : Nat)
    (h1 : pool.findIdx? freeConnectionPredicate = none)
    (h2 : pool.findIdx? anyNonInitializedConnectionPredicate = none) :
    getFreeConnection (some conn) pool =
      (some pool.length, pool ++ [⟨some conn, ConnState.BUSY_OK⟩]) := by
  have happ := findIdx?_append_free pool
    ⟨some conn, ConnState.FREE_INITIALIZED⟩ h1
    (by simp [freeConnectionPredicate])
  rw [getFreeConnection.eq_def]
  simp only [h1, h2, Option.isSome_none, Bool.false_eq_true, dite_false]
  rw [getFreeConnection.eq_def]
  simp [happ, updateAt_append_at_length]

theorem getFreeConnection_connect_fail (pool : List dfsConnection)
    (h1 : pool.findIdx? freeConnectionPredicate = none)
    (h2 : pool.findIdx? anyNonInitializedConnectionPredicate = none) :
    getFreeConnection none pool = (none, pool) := by
  rw [getFreeConnection.eq_def]
  simp [h1, h2]

/-- C2: getFreeConnection follows the three-step algorithm — (1) if a
FREE_INITIALIZED connection exists, the first one is marked BUSY_OK and
leased, with the pool size unchanged; (2) otherwise, if a connection in
neither BUSY_OK nor FREE_INITIALIZED state exists, a single connect() is
attempted: on success that slot's handle is replaced and it is marked
BUSY_OK and leased (pool size unchanged), on failure the empty Lease is
returned and the pool is untouched; (3) otherwise a new connection is
appended only if connect() succeeds (and the Lease covers the new slot at
index pool.length), while a failed connect leaves the pool unchanged with
an empty Lease.  Consequently the pool never shrinks and grows by at most
one per call. -/
theorem getFreeConnection_spec (r : fsBridge) (pool : List dfsConnection) :
    (∀ i, pool.findIdx? freeConnectionPredicate = some i →
       getFreeConnection r pool =
           (some i,
            updateAt i (fun c => { c with state := ConnState.BUSY_OK }) pool)
         ∧ (getFreeConnection r pool).2.length = pool.length)
    ∧ (pool.findIdx? freeConnectionPredicate = none →
       ∀ i, pool.findIdx? anyNonInitializedConnectionPredicate = some i →
         (∀ conn, r = some conn →
            getFreeConnection r pool =
                (some i,
                 updateAt i (fun _ => ⟨some conn, ConnState.BUSY_OK⟩) pool)
              ∧ (getFreeConnection r pool).2.length = pool.length)
         ∧ (r = none → getFreeConnection r pool = (none, pool)))
    ∧ (pool.findIdx? freeConnectionPredicate = none →
       pool.findIdx? anyNonInitializedConnectionPredicate = none →
         (∀ conn, r = some conn →
            getFreeConnection r pool =
              (some pool.length, pool ++ [⟨some conn, ConnState.BUSY_OK⟩]))
         ∧ (r = none → getFreeConnection r pool = (none, pool)))
    ∧ pool.length ≤ (getFreeConnection r pool).2.length
    ∧ (getFreeConnection r pool).2.length ≤ pool.length + 1 := by
  refine ⟨?_, ?_, ?_, ?_⟩
  · intro i h
    rw [getFreeConnection_free r pool i h]
    simp [updateAt_length]
  · intro h1 i h2
    constructor
    · intro conn hr
      subst hr
      rw [getFreeConnection_repair pool i conn h1 h2]
      simp [updateAt_length]
    · intro hr
      subst hr
      exact getFreeConnection_repair_fail pool i h1 h2
  · intro h1 h2
    constructor
    · intro conn hr
      subst hr
      exact getFreeConnection_grow pool conn h1 h2
    · intro hr
      subst hr
      exact getFreeConnection_connect_fail pool h1 h2
  · cases hh1 : pool.findIdx? freeConnectionPredicate with
    | some i =>
      rw [getFreeConnection_free r pool i hh1]
      simp [updateAt_length]
    | none =>
      cases hh2 : pool.findIdx? anyNonInitializedConnectionPredicate with
      | some i =>
        cases r with
        | some conn =>
          rw [getFreeConnection_repair pool i conn hh1 hh2]
          simp [updateAt_length]
        | none =>
          rw [getFreeConnection_repair_fail pool i hh1 hh2]
          simp
      | none =>
        cases r with
        | some conn =>
          rw [getFreeConnection_grow pool conn hh1 hh2]
          simp
        | none =>
          rw [getFreeConnection_connect_fail pool hh1 hh2]
          simp

/-- Witness for C2 at a concrete pool: one BUSY_OK connection, a
successful connect; step 3 appends the new connection and leases it. -/
theorem getFreeConnection_spec_witness :
    getFreeConnection (some 9) [⟨some 3, ConnState.BUSY_OK⟩] =
      (some 1, [⟨some 3, ConnState.BUSY_OK⟩,
                ⟨some 9, ConnState.BUSY_OK⟩]) := by
  have h := (getFreeConnection_spec (some 9)
    [⟨some 3, ConnState.BUSY_OK⟩]).2.2.1 rfl rfl
  exact h.1 9 rfl

/-! ## Claim theorems: registry adapter directory (C5, C7) -/

theorem fsCount_zero_lookup_none (reg : CacheLayerRegistry) (t : DFS_TYPE)
    (h : String) (hcount : fsCount reg t h = 0) :
    fsLookup reg t h = none := by
  rw [fsLookup, Option.map_eq_none', List.find?_eq_none]
  intro kv hkv hbeq
  have : kv ∈ reg.m_filesystems.filter (fun kv => kv.1 == (t, h)) :=
    List.mem_filter.mpr ⟨hkv, hbeq⟩
  rw [fsCount, List.length_eq_zero] at hcount
  simp [hcount] at this

/-- C5: for a descriptor with a concrete (non-sentinel) host and a
registry holding no adapter for its (dfs_type, host), setupFileSystem
returns OK and inserts exactly one adapter — the Tachyon priming variant
iff dfs_type is tachyon; the identical second call returns OK and changes
nothing; getFileSystemDescriptor returns that same adapter after each
call, and any registry in which it is the registered adapter is left
unchanged by further identical calls. -/
theorem setupFileSystem_idempotent_singleton (resolver : Option ResolvedFs)
    (reg : CacheLayerRegistry) (d : FileSystemDescriptor)
    (hhost : d.host ≠ DEFAULT_FS)
    (habs : fsCount reg d.dfs_type d.host = 0) :
    ∃ reg1 adapter,
      setupFileSystem resolver reg d = (StatusInternal.OK, reg1, d)
      ∧ fsCount reg1 d.dfs_type d.host = 1
      ∧ adapter.isTachyon = (d.dfs_type == DFS_TYPE.tachyon)
      ∧ getFileSystemDescriptor reg1 d = some adapter
      ∧ setupFileSystem resolver reg1 d = (StatusInternal.OK, reg1, d)
      ∧ ∀ reg2, getFileSystemDescriptor reg2 d = some adapter →
          setupFileSystem resolver reg2 d = (StatusInternal.OK, reg2, d) := by
  have hlook := fsCount_zero_lookup_none reg d.dfs_type d.host habs
  refine ⟨⟨((d.dfs_type, d.host), ⟨d.dfs_type == DFS_TYPE.tachyon, d⟩)
    :: reg.m_filesystems⟩, ⟨d.dfs_type == DFS_TYPE.tachyon, d⟩,
    ?_, ?_, rfl, ?_, ?_, ?_⟩
  · simp [setupFileSystem, hhost, setupFileSystemPooling, hlook]
  · rw [fsCount] at habs ⊢
    simp [List.filter_cons, habs]
  · simp [getFileSystemDescriptor, fsLookup, List.find?_cons]
  · have hlook2 : fsLookup
        ⟨((d.dfs_type, d.host), ⟨d.dfs_type == DFS_TYPE.tachyon, d⟩)
          :: reg.m_filesystems⟩ d.dfs_type d.host
        = some ⟨d.dfs_type == DFS_TYPE.tachyon, d⟩ := by
      simp [fsLookup, List.find?_cons]
    simp [setupFileSystem, hhost, setupFileSystemPooling, hlook2]
  · intro reg2 hreg2
    rw [getFileSystemDescriptor] at hreg2
    simp [setupFileSystem, hhost, setupFileSystemPooling, hreg2]

/-- Witness for C5: the tachyon descriptor {tachyon, "h1", 80} against
the empty registry. -/
theorem setupFileSystem_idempotent_singleton_witness :
    ("h1" : String) ≠ DEFAULT_FS
    ∧ ∃ reg1 adapter,
      setupFileSystem none ⟨[]⟩ ⟨DFS_TYPE.tachyon, "h1", 80⟩
          = (StatusInternal.OK, reg1, ⟨DFS_TYPE.tachyon, "h1", 80⟩)
        ∧ fsCount reg1 DFS_TYPE.tachyon "h1" = 1
        ∧ adapter.isTachyon = (DFS_TYPE.tachyon == DFS_TYPE.tachyon)
        ∧ getFileSystemDescriptor reg1 ⟨DFS_TYPE.tachyon, "h1", 80⟩
          = some adapter
        ∧ setupFileSystem none reg1 ⟨DFS_TYPE.tachyon, "h1", 80⟩
          = (StatusInternal.OK, reg1, ⟨DFS_TYPE.tachyon, "h1", 80⟩)
        ∧ ∀ reg2, getFileSystemDescriptor reg2 ⟨DFS_TYPE.tachyon, "h1", 80⟩
              = some adapter →
            setupFileSystem none reg2 ⟨DFS_TYPE.tachyon, "h1", 80⟩
              = (StatusInternal.OK, reg2, ⟨DFS_TYPE.tachyon, "h1", 80⟩) :=
  ⟨by decide,
   setupFileSystem_idempotent_singleton none ⟨[]⟩
     ⟨DFS_TYPE.tachyon, "h1", 80⟩ (by decide) rfl⟩

/-- C7: when the descriptor's host is the resolve-from-config sentinel,
setupFileSystem first resolves: a failed resolution yields
DFS_ADAPTOR_IS_NOT_CONFIGURED with the registry untouched (no adapter
inserted); a successful resolution rewrites the descriptor in place to
the resolved host, the resolved backend type and the resolved port
clamped to be non-negative, and pooling then proceeds on exactly that
updated descriptor. -/
theorem setupFileSystem_resolution_spec (resolver : Option ResolvedFs)
    (reg : CacheLayerRegistry) (d : FileSystemDescriptor)
    (hhost : d.host = DEFAULT_FS) :
    (resolver = none →
       setupFileSystem resolver reg d
         = (StatusInternal.DFS_ADAPTOR_IS_NOT_CONFIGURED, reg, d))
    ∧ (∀ res, resolver = some res →
         setupFileSystem resolver reg d
             = setupFileSystemPooling reg
                 { d with host := res.host, dfs_type := res.dfs_type,
                          port := if res.port < 0 then 0 else res.port }
           ∧ 0 ≤ (if res.port < 0 then 0 else res.port)) := by
  constructor
  · intro hres
    subst hres
    simp [setupFileSystem, hhost, resolveFsAddress]
  · intro res hres
    subst hres
    constructor
    · simp [setupFileSystem, hhost, resolveFsAddress]
    · split
      · omega
      · omega

/-- Witness for C7: a failing resolver on {NON_SPECIFIED, "default", 0},
and a resolver answering host "nn", port -5 (clamped to 0), type hdfs. -/
theorem setupFileSystem_resolution_spec_witness :
    (setupFileSystem none ⟨[]⟩ ⟨DFS_TYPE.NON_SPECIFIED, DEFAULT_FS, 0⟩
       = (StatusInternal.DFS_ADAPTOR_IS_NOT_CONFIGURED, ⟨[]⟩,
          ⟨DFS_TYPE.NON_SPECIFIED, DEFAULT_FS, 0⟩))
    ∧ (setupFileSystem (some ⟨"nn", -5, DFS_TYPE.hdfs⟩) ⟨[]⟩
           ⟨DFS_TYPE.NON_SPECIFIED, DEFAULT_FS, 0⟩
         = setupFileSystemPooling ⟨[]⟩ ⟨DFS_TYPE.hdfs, "nn",
             if (-5 : Int) < 0 then 0 else -5⟩
       ∧ (0 : Int) ≤ (if (-5 : Int) < 0 then 0 else -5)) :=
  ⟨(setupFileSystem_resolution_spec none ⟨[]⟩
      ⟨DFS_TYPE.NON_SPECIFIED, DEFAULT_FS, 0⟩ rfl).1 rfl,
   (setupFileSystem_resolution_spec (some ⟨"nn", -5, DFS_TYPE.hdfs⟩) ⟨[]⟩
      ⟨DFS_TYPE.NON_SPECIFIED, DEFAULT_FS, 0⟩ rfl).2
      ⟨"nn", -5, DFS_TYPE.hdfs⟩ rfl⟩

/-! ## Claim theorem: create-from-select pairing (C6) -/

theorem getScenario_none_keys (m : CreateFromSelectMap) (L : Nat)
    (hfree : getCreateFromSelectScenario m L = none) :
    ∀ kv ∈ m, (kv.1 == L) = false := by
  rw [getCreateFromSelectScenario, Option.map_eq_none',
    List.find?_eq_none] at hfree
  intro kv hkv
  simpa using hfree kv hkv

/-- C6: when L is unpaired, registering (L, R1) returns true and inserts
the pairing; a second registration (L, R2) returns false and leaves the
map unchanged, with L still paired to R1; unregistering L then returns
true and restores the original map, after which lookup of L reports no
pairing; and on any map in which L is unpaired, unregister returns false
and modifies nothing. -/
theorem createFromSelectScenario_spec (m : CreateFromSelectMap)
    (L R1 R2 : Nat) (hfree : getCreateFromSelectScenario m L = none) :
    ∃ m1, registerCreateFromSelectScenario m L R1 = (true, m1)
      ∧ getCreateFromSelectScenario m1 L = some R1
      ∧ registerCreateFromSelectScenario m1 L R2 = (false, m1)
      ∧ unregisterCreateFromSelectScenario m1 L = (true, m)
      ∧ getCreateFromSelectScenario m L = none
      ∧ ∀ m0 : CreateFromSelectMap, getCreateFromSelectScenario m0 L = none →
          unregisterCreateFromSelectScenario m0 L = (false, m0) := by
  have hkeys := getScenario_none_keys m L hfree
  have hfind : m.find? (fun kv => kv.1 == L) = none :=
    List.find?_eq_none.mpr (fun kv hkv => by simp [hkeys kv hkv])
  have hfilter : ∀ m0 : CreateFromSelectMap,
      (∀ kv ∈ m0, (kv.1 == L) = false) →
      m0.filter (fun kv => !(kv.1 == L)) = m0 := by
    intro m0 hm0
    exact List.filter_eq_self.mpr (fun kv hkv => by simp [hm0 kv hkv])
  refine ⟨m ++ [(L, R1)], ?_, ?_, ?_, ?_, hfree, ?_⟩
  · rw [registerCreateFromSelectScenario, hfind]
  · rw [getCreateFromSelectScenario, List.find?_append, hfind]
    simp [List.find?_cons]
  · rw [registerCreateFromSelectScenario, List.find?_append, hfind]
    simp [List.find?_cons]
  · rw [unregisterCreateFromSelectScenario]
    simp only [List.filter_append, hfilter m hkeys]
    simp [List.filter_cons]
  · intro m0 hm0
    rw [unregisterCreateFromSelectScenario]
    simp [hfilter m0 (getScenario_none_keys m0 L hm0)]

/-- Witness for C6 from the empty map with L = 10, R1 = 20, R2 = 30. -/
theorem createFromSelectScenario_spec_witness :
    getCreateFromSelectScenario [] 10 = none
    ∧ ∃ m1, registerCreateFromSelectScenario [] 10 20 = (true, m1)
      ∧ getCreateFromSelectScenario m1 10 = some 20
      ∧ registerCreateFromSelectScenario m1 10 30 = (false, m1)
      ∧ unregisterCreateFromSelectScenario m1 10 = (true, [])
      ∧ getCreateFromSelectScenario [] 10 = none
      ∧ ∀ m0 : CreateFromSelectMap,
          getCreateFromSelectScenario m0 10 = none →
          unregisterCreateFromSelectScenario m0 10 = (false, m0) :=
  ⟨rfl, createFromSelectScenario_spec [] 10 20 30 rfl⟩

end ImpalaToGo
